import Mathlib

/-!
Shallow embedding of `src/scripts/utils.py` (Fabric CLI Power BI CI/CD sample).

Modelling conventions:
  * JSON values are the inductive `JsonVal`; `dict.get` on a JSON object is
    `pyDictGet` (total, returning `JsonVal.null` for a missing key, exactly as
    Python's `dict.get` returns `None`).  Service collection bodies are JSON
    arrays of JSON objects, matching the documented API contract.
  * The network is an oracle: each function receives the `HttpResponse` the
    remote service would produce for each request it can issue, and returns,
    next to its Python result, the list of `Request`s it actually issued (in
    order).  An exception is `Except.error` carrying a `PyError`.
  * The local filesystem is a tree `FsDir`; `walkParts` models the `os.walk`
    traversal of `build_definition_parts_from_folder` (top-down, the files of
    a directory first, then its subdirectories in order, relative paths joined
    with "/", POSIX semantics).
  * Byte strings are `List Nat` (each entry one byte value).
-/

/-- A JSON value, as produced by `resp.json()`. -/
inductive JsonVal where
  | null : JsonVal
  | str (s : String) : JsonVal
  | arr (elems : List JsonVal) : JsonVal
  | obj (fields : List (String × JsonVal)) : JsonVal
deriving Repr

/-- Python `v == t` where `t` is a string: true exactly when `v` is that
string (comparison of a JSON value against a `str` literal). -/
def isStrEq (v : JsonVal) (t : String) : Bool :=
  match v with
  | .str s => s = t
  | _ => false

/-- Python `v is None`: true exactly when the value is `None`/JSON null. -/
def isNull : JsonVal → Bool
  | .null => true
  | _ => false

/-- The exceptions the script can raise, by Python class.
`fabricAuthError` and `fabricApiError` are the two classes declared in
`utils.py`; `valueError` covers `ValueError` (including `json.JSONDecodeError`);
`unboundLocalError` models referencing a local variable before assignment. -/
inductive PyError where
  | fabricAuthError (msg : String)
  | fabricApiError (msg : String)
  | valueError (msg : String)
  | keyError (key : String)
  | typeError (msg : String)
  | unboundLocalError (name : String)
deriving DecidableEq, Repr

/-- A response from the remote service: HTTP status code, raw text, and the
parsed JSON body (`none` when the text is not parseable JSON, in which case
`resp.json()` raises). -/
structure HttpResponse where
  status : Nat
  text : String
  jsonBody : Option JsonVal
deriving Repr

/-- A request issued on the wire: method, full URL, the headers actually sent,
and the structured body (for the form-encoded token request, the form
fields). -/
structure Request where
  method : String
  url : String
  headers : List (String × String)
  body : Option JsonVal
deriving Repr

/-- `resp.json()`: returns the parsed body or raises `json.JSONDecodeError`
(a `ValueError`). -/
def respJson (r : HttpResponse) : Except PyError JsonVal :=
  match r.jsonBody with
  | some j => .ok j
  | none => .error (.valueError "Expecting value: line 1 column 1 (char 0)")

/-- Python truthiness of a JSON value (`if not value`). -/
def JsonVal.truthy : JsonVal → Bool
  | .null => false
  | .str s => s ≠ ""
  | .arr xs => !xs.isEmpty
  | .obj fs => !fs.isEmpty

/-- `d.get(k)` on a JSON object: the value at the first occurrence of key `k`,
or `null` (Python `None`) when absent.  (Non-object values never flow here in
the modelled runs; Python would raise `AttributeError`.) -/
def pyDictGet (v : JsonVal) (k : String) : JsonVal :=
  match v with
  | .obj fields =>
      match fields.find? (fun p => p.1 = k) with
      | some p => p.2
      | none => .null
  | _ => .null

/-- Presence of key `k` in a JSON object (`none` when absent), used to model
`d.get(k, default)` and `d[k]`. -/
def lookupKey (v : JsonVal) (k : String) : Option JsonVal :=
  match v with
  | .obj fields => (fields.find? (fun p => p.1 = k)).map (·.2)
  | _ => none

/-- `d[k]` on a JSON object: `KeyError` when the key is absent, `TypeError`
when the value is not an object. -/
def pySubscript (v : JsonVal) (k : String) : Except PyError JsonVal :=
  match v with
  | .obj _ =>
      match lookupKey v k with
      | some x => .ok x
      | none => .error (.keyError k)
  | _ => .error (.typeError "value is not subscriptable by string")

/-- `"id" in item` for a JSON value `item` (dict: key membership; list:
element membership; string: substring; `None` is short-circuited away by
`not item` in the source). -/
def pyContains (v : JsonVal) (k : String) : Bool :=
  match v with
  | .obj fields => fields.any (fun p => p.1 = k)
  | .arr xs => xs.any (fun x => isStrEq x k)
  | .str s => decide (List.IsInfix k.toList s.toList)
  | .null => false

/-- Iterating a service collection (`for ws in workspaces`); the API contract
returns JSON arrays. -/
def asList : JsonVal → List JsonVal
  | .arr xs => xs
  | _ => []

/-- `headers[k] = v`: overwrite the existing entry or append. -/
def setHeader (hs : List (String × String)) (k v : String) : List (String × String) :=
  if hs.any (fun p => p.1 = k) then
    hs.map (fun p => if p.1 = k then (k, v) else p)
  else
    hs ++ [(k, v)]

/-- `k in headers`. -/
def hasHeader (hs : List (String × String)) (k : String) : Bool :=
  hs.any (fun p => p.1 = k)

/-- `path.lstrip('/')`. -/
def lstripSlashes (s : String) : String :=
  ⟨s.toList.dropWhile (· = '/')⟩

/-- Checks `sub in s` for strings (Python substring membership). -/
def strContains (s sub : String) : Bool :=
  decide (List.IsInfix sub.toList s.toList)

/-- Splitting a character list at every occurrence of a separator (the
list-level counterpart of Python `str.split(sep)` for a one-character
separator). -/
def splitChar (c : Char) : List Char → List (List Char)
  | [] => [[]]
  | x :: xs =>
      match splitChar c xs with
      | [] => [[]]
      | h :: t => if x = c then [] :: h :: t else (x :: h) :: t

/-- `rel_path.replace("\\", "/")`: for the one-character pattern this is a
character-by-character substitution. -/
def replaceBackslashes (s : String) : String :=
  ⟨s.toList.map (fun ch => if ch = '\\' then '/' else ch)⟩

/-! ## File system model and `build_definition_parts_from_folder` -/

/-- A directory on disk: its regular files (name, content bytes) and its
subdirectories, both in the order `os.walk` reports them. -/
inductive FsDir where
  | mk (files : List (String × List Nat)) (subdirs : List (String × FsDir))

/-- `os.path.join` of a relative prefix with a name (empty prefix at the walk
root, where `os.path.relpath(os.path.join(folder, f), folder) = f`). -/
def joinRel (p fn : String) : String :=
  if p = "" then fn else p ++ "/" ++ fn

/-- One entry of the `parts` list built by
`build_definition_parts_from_folder`. -/
structure DefinitionPart where
  path : String
  payload : String
  payloadType : String
deriving DecidableEq, Repr

/-- The base64 alphabet of RFC 4648 (`base64.b64encode`). -/
def base64Alphabet : List Char :=
  "ABCDEFGHIJKLMNOPQRSTUVWXYZabcdefghijklmnopqrstuvwxyz0123456789+/".toList

/-- The base64 digit for a 6-bit value. -/
def b64c (n : Nat) : Char := base64Alphabet.getD n 'A'

/-- `base64.b64encode(content).decode("ascii")`: 3-byte groups become 4
digits; a trailing group of 1 or 2 bytes is padded with `=`. -/
def base64Encode : List Nat → String
  | [] => ""
  | [a] => String.mk [b64c (a / 4), b64c (a % 4 * 16), '=', '=']
  | [a, b] => String.mk [b64c (a / 4), b64c (a % 4 * 16 + b / 16), b64c (b % 16 * 4), '=']
  | a :: b :: c :: rest =>
      String.mk [b64c (a / 4), b64c (a % 4 * 16 + b / 16),
        b64c (b % 16 * 4 + c / 64), b64c (c % 64)]
        ++ base64Encode rest

mutual
/-- The `os.walk(folder)` loop of `build_definition_parts_from_folder`: for
each file, `rel_path = os.path.relpath(os.path.join(root, filename), folder)`
with backslashes replaced by "/", `payload` the base64 of the file bytes,
`payloadType = "InlineBase64"`.  `pre` is the relative path of the directory
being visited (empty at the walk root); the walk is top-down, files first. -/
def walkParts (pre : String) : FsDir → List DefinitionPart
  | .mk files subdirs =>
      files.map (fun f =>
        { path := replaceBackslashes (joinRel pre f.1)
          payload := base64Encode f.2
          payloadType := "InlineBase64" })
        ++ walkSubdirs pre subdirs

/-- The recursion of `os.walk` into the subdirectories, in order. -/
def walkSubdirs (pre : String) : List (String × FsDir) → List DefinitionPart
  | [] => []
  | (dn, sub) :: rest => walkParts (joinRel pre dn) sub ++ walkSubdirs pre rest
end

/-- `build_definition_parts_from_folder(folder)`: the parts of the walk, or
`ValueError` when the walk yielded no file at all.  `tree` is the on-disk
content of `folder`. -/
def build_definition_parts_from_folder (folder : String) (tree : FsDir) :
    Except PyError (List DefinitionPart) :=
  let parts := walkParts "" tree
  if parts.isEmpty then
    .error (.valueError ("No files found in PBIP folder: " ++ folder))
  else
    .ok parts

/-! ## The REST functions -/

def FABRIC_API_BASE : String := "https://api.fabric.microsoft.com/v1"

/-- `fabric_request(method, path, token, **kwargs)`: join the base URL with
the path (stripped of leading slashes), inject the bearer header, default the
Content-Type header to JSON when a `json=` body is supplied without one, and
raise `FabricApiError` unless `resp.ok` (status < 400).  `resp` is the
response the service gives to this request; the issued `Request` (with its
final headers and body) is returned next to the Python result. -/
def fabric_request (method path token : String)
    (headers0 : List (String × String)) (jsonArg : Option JsonVal)
    (resp : HttpResponse) : Except PyError HttpResponse × Request :=
  let url := FABRIC_API_BASE ++ "/" ++ lstripSlashes path
  let headers1 := setHeader headers0 "Authorization" ("Bearer " ++ token)
  let headers2 :=
    if jsonArg.isSome && !hasHeader headers1 "Content-Type" then
      setHeader headers1 "Content-Type" "application/json"
    else headers1
  let req : Request := ⟨method, url, headers2, jsonArg⟩
  if resp.status < 400 then
    (.ok resp, req)
  else
    (.error (.fabricApiError (method ++ " " ++ url ++ " failed. HTTP " ++
      toString resp.status ++ ": " ++ resp.text)), req)

/-- `_get_env_or_fail(name)`: the environment value, or `FabricAuthError`
when the variable is unset or empty (`if not value`). -/
def _get_env_or_fail (env : String → Option String) (name : String) :
    Except PyError String :=
  match env name with
  | some v =>
      if v = "" then
        .error (.fabricAuthError ("Missing environment variable: " ++ name))
      else
        .ok v
  | none => .error (.fabricAuthError ("Missing environment variable: " ++ name))

/-- The client-credentials token request of `get_access_token_spn`:
`requests.post(token_url, data=data)` with the form fields of the source. -/
def spnTokenRequest (tenant_id client_id client_secret : String) : Request :=
  ⟨"POST",
   "https://login.microsoftonline.com/" ++ tenant_id ++ "/oauth2/v2.0/token",
   [],
   some (.obj
     [("grant_type", .str "client_credentials"),
      ("client_id", .str client_id),
      ("client_secret", .str client_secret),
      ("scope", .str "https://api.fabric.microsoft.com/.default")])⟩

/-- `get_access_token_spn()`: read the three required environment variables,
POST the client-credentials form to the tenant token endpoint, and extract
`access_token`.  `env` is the process environment, `tokenResp` the identity
service's response; the issued requests are returned next to the result. -/
def get_access_token_spn (env : String → Option String)
    (tokenResp : HttpResponse) : Except PyError JsonVal × List Request :=
  match _get_env_or_fail env "FABRIC_TENANT_ID" with
  | .error e => (.error e, [])
  | .ok tenant_id =>
    match _get_env_or_fail env "FABRIC_CLIENT_ID" with
    | .error e => (.error e, [])
    | .ok client_id =>
      match _get_env_or_fail env "FABRIC_CLIENT_SECRET" with
      | .error e => (.error e, [])
      | .ok client_secret =>
        let req : Request := spnTokenRequest tenant_id client_id client_secret
        if tokenResp.status ≠ 200 then
          (.error (.fabricAuthError ("Failed to acquire token. HTTP " ++
            toString tokenResp.status ++ ": " ++ tokenResp.text)), [req])
        else
          match respJson tokenResp with
          | .error e => (.error e, [req])
          | .ok j =>
            let token := pyDictGet j "access_token"
            if !token.truthy then
              (.error (.fabricAuthError
                "Token response does not contain 'access_token'."), [req])
            else
              (.ok token, [req])

/-- `data.get("value", data.get(fallbackKey, []))`: the collection of a
listing body, with the documented fallback key and the empty default. -/
def collectionGet (data : JsonVal) (fallbackKey : String) : JsonVal :=
  match lookupKey data "value" with
  | some x => x
  | none => (lookupKey data fallbackKey).getD (.arr [])

/-- The `for ws in workspaces` scan of `get_or_create_workspace`: the first
entry whose `displayName` equals the wanted name. -/
def findWorkspace (name : String) : List JsonVal → Option JsonVal
  | [] => none
  | ws :: rest =>
      if isStrEq (pyDictGet ws "displayName") name then some ws
      else findWorkspace name rest

/-- `get_or_create_workspace(workspace_name, token, capacity_id)`: list the
workspaces, return the id of the first display-name match, else create one
(adding `capacityId` only when `capacity_id` is truthy) and return the id of
the create response body.  `listResp`/`createResp` are the service responses
to the two possible requests. -/
def get_or_create_workspace (workspace_name token : String)
    (capacity_id : Option String) (listResp createResp : HttpResponse) :
    Except PyError JsonVal × List Request :=
  let r1 := fabric_request "GET" "workspaces" token [] none listResp
  match r1.1 with
  | .error e => (.error e, [r1.2])
  | .ok resp =>
    match respJson resp with
    | .error e => (.error e, [r1.2])
    | .ok data =>
      let workspaces := asList (collectionGet data "workspaces")
      match findWorkspace workspace_name workspaces with
      | some ws => (.ok (pyDictGet ws "id"), [r1.2])
      | none =>
        let body : JsonVal := .obj
          ([("displayName", .str workspace_name)] ++
            (match capacity_id with
             | some c => if c = "" then [] else [("capacityId", .str c)]
             | none => []))
        let r2 := fabric_request "POST" "workspaces" token [] (some body) createResp
        match r2.1 with
        | .error e => (.error e, [r1.2, r2.2])
        | .ok resp2 =>
          match respJson resp2 with
          | .error e => (.error e, [r1.2, r2.2])
          | .ok ws =>
            match pySubscript ws "id" with
            | .error e => (.error e, [r1.2, r2.2])
            | .ok wsId => (.ok wsId, [r1.2, r2.2])

/-- `list_items_by_type(workspace_id, item_type, token)`: GET the item
listing of the workspace filtered by type and return
`data.get("value", data.get("items", []))`. -/
def list_items_by_type (workspace_id item_type token : String)
    (resp : HttpResponse) : Except PyError JsonVal × List Request :=
  let path := "workspaces/" ++ workspace_id ++ "/items?type=" ++ item_type
  let r := fabric_request "GET" path token [] none resp
  match r.1 with
  | .error e => (.error e, [r.2])
  | .ok resp2 =>
    match respJson resp2 with
    | .error e => (.error e, [r.2])
    | .ok data => (.ok (collectionGet data "items"), [r.2])

/-- `os.path.basename` (POSIX): the part after the last "/". -/
def pyBasename (p : String) : String :=
  ⟨(splitChar '/' p.toList).getLastD []⟩

/-- The display name of `create_or_update_item_from_folder`: the folder base
name, truncated at the first "." when one is present (`"." in display_name`
then `display_name.split(".", 1)[0]`, which is everything before the first
"."). -/
def computeDisplayName (folder : String) : String :=
  let display_name := pyBasename folder
  if display_name.toList.contains '.' then
    ⟨display_name.toList.takeWhile (· ≠ '.')⟩
  else
    display_name

/-- The `for it in existing_items` scan of `create_or_update_item_from_folder`:
`item_id` starts as `None` and becomes `it.get("id")` of the first
display-name match (so it stays `None` when the matching entry has no id). -/
def findMatchItemId (display_name : String) : List JsonVal → JsonVal
  | [] => .null
  | it :: rest =>
      if isStrEq (pyDictGet it "displayName") display_name then pyDictGet it "id"
      else findMatchItemId display_name rest

/-- A definition part as placed into the JSON request body. -/
def partToJson (p : DefinitionPart) : JsonVal :=
  .obj [("path", .str p.path), ("payload", .str p.payload),
        ("payloadType", .str p.payloadType)]

/-- `create_or_update_item_from_folder(workspace_id, folder, item_type,
token)`: compute the display name, build the definition parts, list the
existing items of the type, and either create the item (POST
`workspaces/{ws}/items`; the response body must parse and carry an id, else
`FabricApiError`) or take the update branch.  The update branch of the source
builds `body = {"definition": definition}` and then evaluates
`item = resp.json()`, but `resp` is a local variable never assigned on that
path, so Python raises `UnboundLocalError` there and no update request is
ever issued. -/
def create_or_update_item_from_folder (workspace_id folder : String)
    (tree : FsDir) (item_type token : String)
    (listResp createResp : HttpResponse) :
    Except PyError JsonVal × List Request :=
  let display_name := computeDisplayName folder
  match build_definition_parts_from_folder folder tree with
  | .error e => (.error e, [])
  | .ok parts =>
    let definition : JsonVal := .obj [("parts", .arr (parts.map partToJson))]
    let rl := list_items_by_type workspace_id item_type token listResp
    match rl.1 with
    | .error e => (.error e, rl.2)
    | .ok existingJson =>
      let item_id := findMatchItemId display_name (asList existingJson)
      if isNull item_id then
        let body : JsonVal := .obj
          [("displayName", .str display_name),
           ("type", .str item_type),
           ("definition", definition)]
        let r2 := fabric_request "POST" ("workspaces/" ++ workspace_id ++ "/items")
          token [] (some body) createResp
        match r2.1 with
        | .error e => (.error e, rl.2 ++ [r2.2])
        | .ok resp =>
          let item : JsonVal := (resp.jsonBody).getD .null
          if !item.truthy || !pyContains item "id" then
            (.error (.fabricApiError ("Fabric failed to create item '" ++
              display_name ++ "' of type '" ++ item_type ++ "'.")),
             rl.2 ++ [r2.2])
          else
            match pySubscript item "id" with
            | .error e => (.error e, rl.2 ++ [r2.2])
            | .ok itemId => (.ok itemId, rl.2 ++ [r2.2])
      else
        (.error (.unboundLocalError "resp"), rl.2)

/-- "The directory tree holds a file at this relative path (given as its list
of path components) with these content bytes."  The relative path of a file
directly in the root is its name; a file inside a subdirectory prefixes the
subdirectory name. -/
inductive FileAt : FsDir → List String → List Nat → Prop where
  | here {files : List (String × List Nat)} {subdirs : List (String × FsDir)}
      {fn : String} {content : List Nat} :
      (fn, content) ∈ files → FileAt (.mk files subdirs) [fn] content
  | there {files : List (String × List Nat)} {subdirs : List (String × FsDir)}
      {dn : String} {sub : FsDir} {comps : List String} {content : List Nat} :
      (dn, sub) ∈ subdirs → FileAt sub comps content →
      FileAt (.mk files subdirs) (dn :: comps) content

/-! ## Helper lemmas -/

theorem setHeader_self_mem (hs : List (String × String)) (k v : String) :
    (k, v) ∈ setHeader hs k v := by
  unfold setHeader
  split
  · rename_i h
    obtain ⟨p, hp, hpk⟩ := List.any_eq_true.1 h
    exact List.mem_map.2 ⟨p, hp, by simp [of_decide_eq_true hpk]⟩
  · exact List.mem_append_right _ (List.mem_singleton.2 rfl)

theorem mem_setHeader_of_ne {hs : List (String × String)} {k' v' : String}
    (h : (k', v') ∈ hs) (k v : String) (hne : k' ≠ k) :
    (k', v') ∈ setHeader hs k v := by
  unfold setHeader
  split
  · exact List.mem_map.2 ⟨(k', v'), h, by simp [hne]⟩
  · exact List.mem_append_left _ h

theorem hasHeader_setHeader_of_ne (hs : List (String × String)) (k v k' : String)
    (hne : k' ≠ k) : hasHeader (setHeader hs k v) k' = hasHeader hs k' := by
  unfold hasHeader setHeader
  split
  · rename_i hany
    clear hany
    induction hs with
    | nil => rfl
    | cons p ps ih =>
        simp only [List.map_cons, List.any_cons, ih]
        by_cases hp : p.1 = k
        · simp [hp, Ne.symm hne]
        · simp [hp]
  · simp [List.any_append, Ne.symm hne]

/-- A successful plain GET through the wrapper: the response is forwarded and
the request carries only the injected bearer header. -/
theorem fabric_request_get_ok {resp : HttpResponse} (h : resp.status < 400)
    (path token : String) :
    fabric_request "GET" path token [] none resp =
      (.ok resp, ⟨"GET", FABRIC_API_BASE ++ "/" ++ lstripSlashes path,
        [("Authorization", "Bearer " ++ token)], none⟩) := by
  unfold fabric_request
  simp [setHeader, hasHeader, h]

/-- A successful POST with a JSON body through the wrapper: the response is
forwarded and the request carries the bearer header and the defaulted JSON
content type. -/
theorem fabric_request_post_json_ok {resp : HttpResponse} (h : resp.status < 400)
    (path token : String) (body : JsonVal) :
    fabric_request "POST" path token [] (some body) resp =
      (.ok resp, ⟨"POST", FABRIC_API_BASE ++ "/" ++ lstripSlashes path,
        [("Authorization", "Bearer " ++ token), ("Content-Type", "application/json")],
        some body⟩) := by
  unfold fabric_request
  simp [setHeader, hasHeader, h]

/-- A POST with a JSON body always issues that one request, whatever the
response status; on a failure status the result is the `FabricApiError`. -/
theorem fabric_request_post_json_snd (resp : HttpResponse)
    (path token : String) (body : JsonVal) :
    (fabric_request "POST" path token [] (some body) resp).2 =
      ⟨"POST", FABRIC_API_BASE ++ "/" ++ lstripSlashes path,
        [("Authorization", "Bearer " ++ token), ("Content-Type", "application/json")],
        some body⟩ := by
  unfold fabric_request
  by_cases h : resp.status < 400 <;> simp [setHeader, hasHeader, h]


/-- The headers of the request issued by `fabric_request`, whatever the
response status. -/
theorem fabric_request_headers (method path token : String)
    (hs : List (String × String)) (j : Option JsonVal) (resp : HttpResponse) :
    (fabric_request method path token hs j resp).2.headers =
      if j.isSome && !hasHeader (setHeader hs "Authorization" ("Bearer " ++ token))
          "Content-Type" then
        setHeader (setHeader hs "Authorization" ("Bearer " ++ token))
          "Content-Type" "application/json"
      else
        setHeader hs "Authorization" ("Bearer " ++ token) := by
  by_cases hlt : resp.status < 400 <;> simp [fabric_request, hlt]

theorem _get_env_or_fail_none {env : String → Option String} {name : String}
    (h : env name = none) :
    _get_env_or_fail env name =
      .error (.fabricAuthError ("Missing environment variable: " ++ name)) := by
  unfold _get_env_or_fail
  rw [h]

theorem _get_env_or_fail_some {env : String → Option String} {name v : String}
    (h : env name = some v) (hv : v ≠ "") : _get_env_or_fail env name = .ok v := by
  unfold _get_env_or_fail
  rw [h]
  simp [hv]

theorem _get_env_or_fail_error_shape {env : String → Option String}
    {name : String} {e : PyError} (h : _get_env_or_fail env name = .error e) :
    e = .fabricAuthError ("Missing environment variable: " ++ name) := by
  unfold _get_env_or_fail at h
  cases he : env name with
  | none =>
      rw [he] at h
      exact (Except.error.inj h).symm
  | some v =>
      rw [he] at h
      by_cases hv : v = ""
      · simp only [hv, if_pos] at h
        exact (Except.error.inj h).symm
      · simp only [if_neg hv] at h
        exact absurd h (by simp)

/-- C6: every call through `fabric_request` raises `FabricApiError` carrying
the method, the full URL, the status code and the raw response text when the
status is at least 400; every response with status 200-299 (202 included) is
returned unchanged to the caller; the `Authorization: Bearer <token>` header
is always part of the issued request; and when a JSON body is supplied
without an explicit Content-Type header, `Content-Type: application/json` is
added. -/
theorem fabric_request_contract (method path token : String)
    (headers0 : List (String × String)) (jsonArg : Option JsonVal)
    (resp : HttpResponse) :
    (400 ≤ resp.status →
      (fabric_request method path token headers0 jsonArg resp).1 =
        .error (.fabricApiError (method ++ " " ++
          (FABRIC_API_BASE ++ "/" ++ lstripSlashes path) ++ " failed. HTTP " ++
          toString resp.status ++ ": " ++ resp.text))) ∧
    (200 ≤ resp.status → resp.status ≤ 299 →
      (fabric_request method path token headers0 jsonArg resp).1 = .ok resp) ∧
    ("Authorization", "Bearer " ++ token) ∈
      (fabric_request method path token headers0 jsonArg resp).2.headers ∧
    (jsonArg.isSome = true → hasHeader headers0 "Content-Type" = false →
      ("Content-Type", "application/json") ∈
        (fabric_request method path token headers0 jsonArg resp).2.headers) := by
  refine ⟨fun h400 => ?_, fun h200 h299 => ?_, ?_, fun hsome hct => ?_⟩
  · unfold fabric_request
    rw [if_neg (by omega)]
  · unfold fabric_request
    rw [if_pos (by omega)]
  · rw [fabric_request_headers]
    split
    · exact mem_setHeader_of_ne (setHeader_self_mem _ _ _) _ _ (by decide)
    · exact setHeader_self_mem _ _ _
  · have hct1 : hasHeader (setHeader headers0 "Authorization" ("Bearer " ++ token))
        "Content-Type" = false := by
      rw [hasHeader_setHeader_of_ne _ _ _ _ (by decide)]
      exact hct
    rw [fabric_request_headers, if_pos (by rw [hsome, hct1]; rfl)]
    exact setHeader_self_mem _ _ _

/-- C6 witness: `fabric_request` at concrete inputs — a 404 raises the
`FabricApiError` with method, URL, status and body; a 202 is forwarded as a
success; the bearer and JSON content-type headers are present. -/
theorem fabric_request_contract_witness :
    (fabric_request "GET" "/workspaces" "tok" [] (some (.obj []))
        ⟨404, "nf", none⟩).1 =
      .error (.fabricApiError ("GET " ++
        (FABRIC_API_BASE ++ "/" ++ lstripSlashes "/workspaces") ++
        " failed. HTTP " ++ toString (404 : Nat) ++ ": " ++ "nf")) ∧
    (fabric_request "GET" "/workspaces" "tok" [] (some (.obj []))
        ⟨202, "", none⟩).1 = .ok ⟨202, "", none⟩ ∧
    ("Authorization", "Bearer " ++ "tok") ∈
      (fabric_request "GET" "/workspaces" "tok" [] (some (.obj []))
        ⟨404, "nf", none⟩).2.headers ∧
    ("Content-Type", "application/json") ∈
      (fabric_request "GET" "/workspaces" "tok" [] (some (.obj []))
        ⟨404, "nf", none⟩).2.headers :=
  ⟨(fabric_request_contract "GET" "/workspaces" "tok" [] (some (.obj []))
      ⟨404, "nf", none⟩).1 (by decide),
   (fabric_request_contract "GET" "/workspaces" "tok" [] (some (.obj []))
      ⟨202, "", none⟩).2.1 (by decide) (by decide),
   (fabric_request_contract "GET" "/workspaces" "tok" [] (some (.obj []))
      ⟨404, "nf", none⟩).2.2.1,
   (fabric_request_contract "GET" "/workspaces" "tok" [] (some (.obj []))
      ⟨404, "nf", none⟩).2.2.2 rfl rfl⟩

/-- C7: when any of the three required environment variables is absent,
`get_access_token_spn` raises the missing-environment-variable
`FabricAuthError` and issues no network request at all (its request trace is
empty). -/
theorem get_access_token_spn_missing_env (env : String → Option String)
    (tokenResp : HttpResponse)
    (h : env "FABRIC_TENANT_ID" = none ∨ env "FABRIC_CLIENT_ID" = none ∨
         env "FABRIC_CLIENT_SECRET" = none) :
    ∃ name, get_access_token_spn env tokenResp =
      (.error (.fabricAuthError ("Missing environment variable: " ++ name)), []) := by
  rcases h with h | h | h
  · exact ⟨"FABRIC_TENANT_ID",
      by simp [get_access_token_spn, _get_env_or_fail_none h]⟩
  · cases h1 : _get_env_or_fail env "FABRIC_TENANT_ID" with
    | error e =>
        exact ⟨"FABRIC_TENANT_ID",
          by simp [get_access_token_spn, h1, _get_env_or_fail_error_shape h1]⟩
    | ok tenant =>
        exact ⟨"FABRIC_CLIENT_ID",
          by simp [get_access_token_spn, h1, _get_env_or_fail_none h]⟩
  · cases h1 : _get_env_or_fail env "FABRIC_TENANT_ID" with
    | error e =>
        exact ⟨"FABRIC_TENANT_ID",
          by simp [get_access_token_spn, h1, _get_env_or_fail_error_shape h1]⟩
    | ok tenant =>
        cases h2 : _get_env_or_fail env "FABRIC_CLIENT_ID" with
        | error e =>
            exact ⟨"FABRIC_CLIENT_ID",
              by simp [get_access_token_spn, h1, h2, _get_env_or_fail_error_shape h2]⟩
        | ok cid =>
            exact ⟨"FABRIC_CLIENT_SECRET",
              by simp [get_access_token_spn, h1, h2, _get_env_or_fail_none h]⟩

/-- C7 witness: with an empty environment, the token provider fails with the
missing-variable error and its request trace is empty. -/
theorem get_access_token_spn_missing_env_witness :
    ∃ name, get_access_token_spn (fun _ => none) ⟨200, "", none⟩ =
      (.error (.fabricAuthError ("Missing environment variable: " ++ name)), []) :=
  get_access_token_spn_missing_env (fun _ => none) ⟨200, "", none⟩ (.inl rfl)

/-- C8: with the three configuration values present, `get_access_token_spn`
fails with `FabricAuthError` surfacing the raw response body on a non-success
(non-200) status; fails with `FabricAuthError` on a 200 whose JSON body has
no truthy `access_token`; and returns the token string on a 200 whose body
carries one. -/
theorem get_access_token_spn_responses (env : String → Option String)
    (tokenResp : HttpResponse) (tenant cid secret : String)
    (h1 : env "FABRIC_TENANT_ID" = some tenant) (h1x : tenant ≠ "")
    (h2 : env "FABRIC_CLIENT_ID" = some cid) (h2x : cid ≠ "")
    (h3 : env "FABRIC_CLIENT_SECRET" = some secret) (h3x : secret ≠ "") :
    (tokenResp.status ≠ 200 →
      get_access_token_spn env tokenResp =
        (.error (.fabricAuthError ("Failed to acquire token. HTTP " ++
          toString tokenResp.status ++ ": " ++ tokenResp.text)),
         [spnTokenRequest tenant cid secret])) ∧
    (∀ j : JsonVal, tokenResp.status = 200 → tokenResp.jsonBody = some j →
      (pyDictGet j "access_token").truthy = false →
      get_access_token_spn env tokenResp =
        (.error (.fabricAuthError "Token response does not contain 'access_token'."),
         [spnTokenRequest tenant cid secret])) ∧
    (∀ (j : JsonVal) (t : String), tokenResp.status = 200 →
      tokenResp.jsonBody = some j → pyDictGet j "access_token" = .str t → t ≠ "" →
      get_access_token_spn env tokenResp =
        (.ok (.str t), [spnTokenRequest tenant cid secret])) := by
  have e1 := _get_env_or_fail_some h1 h1x
  have e2 := _get_env_or_fail_some h2 h2x
  have e3 := _get_env_or_fail_some h3 h3x
  refine ⟨fun hs => ?_, fun j hs hb ht => ?_, fun j t hs hb ht htne => ?_⟩
  · simp [get_access_token_spn, e1, e2, e3, hs]
  · simp [get_access_token_spn, e1, e2, e3, hs, respJson, hb, ht]
  · simp [get_access_token_spn, e1, e2, e3, hs, respJson, hb, ht, JsonVal.truthy, htne]

/-- C8 witness: with a concrete environment, a 500 is surfaced as an
authentication failure with the raw body; a 200 without the field fails; a
200 with `access_token` returns the token. -/
theorem get_access_token_spn_responses_witness :
    get_access_token_spn
        (fun n => if n = "FABRIC_TENANT_ID" then some "t" else
          if n = "FABRIC_CLIENT_ID" then some "c" else
          if n = "FABRIC_CLIENT_SECRET" then some "s" else none)
        ⟨500, "boom", none⟩ =
      (.error (.fabricAuthError ("Failed to acquire token. HTTP " ++
        toString (500 : Nat) ++ ": " ++ "boom")), [spnTokenRequest "t" "c" "s"]) ∧
    get_access_token_spn
        (fun n => if n = "FABRIC_TENANT_ID" then some "t" else
          if n = "FABRIC_CLIENT_ID" then some "c" else
          if n = "FABRIC_CLIENT_SECRET" then some "s" else none)
        ⟨200, "{}", some (.obj [])⟩ =
      (.error (.fabricAuthError "Token response does not contain 'access_token'."),
       [spnTokenRequest "t" "c" "s"]) ∧
    get_access_token_spn
        (fun n => if n = "FABRIC_TENANT_ID" then some "t" else
          if n = "FABRIC_CLIENT_ID" then some "c" else
          if n = "FABRIC_CLIENT_SECRET" then some "s" else none)
        ⟨200, "", some (.obj [("access_token", .str "TOK")])⟩ =
      (.ok (.str "TOK"), [spnTokenRequest "t" "c" "s"]) :=
  ⟨(get_access_token_spn_responses _ ⟨500, "boom", none⟩ "t" "c" "s"
      rfl (by decide) rfl (by decide) rfl (by decide)).1 (by decide),
   (get_access_token_spn_responses _ ⟨200, "{}", some (.obj [])⟩ "t" "c" "s"
      rfl (by decide) rfl (by decide) rfl (by decide)).2.1 (.obj []) rfl rfl rfl,
   (get_access_token_spn_responses _ ⟨200, "", some (.obj [("access_token", .str "TOK")])⟩
      "t" "c" "s" rfl (by decide) rfl (by decide) rfl (by decide)).2.2
      (.obj [("access_token", .str "TOK")]) "TOK" rfl rfl rfl (by decide)⟩

/-- C3: when the recursive walk of the artifact folder yields zero files,
`create_or_update_item_from_folder` fails with the `ValueError` of
`build_definition_parts_from_folder` and issues no network request at all
(its request trace is empty): the definition is built before any listing or
create request. -/
theorem create_or_update_item_empty_folder (workspace_id folder : String)
    (tree : FsDir) (item_type token : String)
    (listResp createResp : HttpResponse)
    (h : walkParts "" tree = []) :
    create_or_update_item_from_folder workspace_id folder tree item_type token
        listResp createResp =
      (.error (.valueError ("No files found in PBIP folder: " ++ folder)), []) := by
  simp [create_or_update_item_from_folder, build_definition_parts_from_folder, h]

/-- C3 witness: for an empty folder tree, publish fails with the
`ValueError` and no request is issued. -/
theorem create_or_update_item_empty_folder_witness :
    create_or_update_item_from_folder "ws1" "src/Empty.Report" (.mk [] [])
        "Report" "TOK" ⟨200, "", none⟩ ⟨200, "", none⟩ =
      (.error (.valueError ("No files found in PBIP folder: " ++ "src/Empty.Report")), []) :=
  create_or_update_item_empty_folder "ws1" "src/Empty.Report" (.mk [] [])
    "Report" "TOK" ⟨200, "", none⟩ ⟨200, "", none⟩ rfl

theorem findWorkspace_append (name : String) (l1 l2 : List JsonVal) (ws : JsonVal)
    (h1 : ∀ w ∈ l1, isStrEq (pyDictGet w "displayName") name = false)
    (hws : isStrEq (pyDictGet ws "displayName") name = true) :
    findWorkspace name (l1 ++ ws :: l2) = some ws := by
  induction l1 with
  | nil => simp [findWorkspace, hws]
  | cons w l ih =>
      simp only [List.cons_append, findWorkspace, h1 w (List.mem_cons_self w l),
        Bool.false_eq_true, if_false]
      exact ih fun x hx => h1 x (List.mem_cons_of_mem w hx)

theorem findWorkspace_none (name : String) (l : List JsonVal)
    (h : ∀ w ∈ l, isStrEq (pyDictGet w "displayName") name = false) :
    findWorkspace name l = none := by
  induction l with
  | nil => rfl
  | cons w l ih =>
      simp only [findWorkspace, h w (List.mem_cons_self w l),
        Bool.false_eq_true, if_false]
      exact ih fun x hx => h x (List.mem_cons_of_mem w hx)

theorem fabric_request_method (method path token : String)
    (hs : List (String × String)) (j : Option JsonVal) (resp : HttpResponse) :
    (fabric_request method path token hs j resp).2.method = method := by
  by_cases h : resp.status < 400 <;> simp [fabric_request, h]

/-- C4: when the wanted display name appears in the listed workspace
collection, `get_or_create_workspace` returns the `id` of the first matching
entry (entries before it do not match) and its whole request trace is that
one listing GET: no create request, no other mutation. -/
theorem get_or_create_workspace_existing (workspace_name token : String)
    (capacity_id : Option String) (listResp createResp : HttpResponse)
    (data : JsonVal) (l1 l2 : List JsonVal) (ws : JsonVal)
    (hok : listResp.status < 400) (hbody : listResp.jsonBody = some data)
    (hsplit : asList (collectionGet data "workspaces") = l1 ++ ws :: l2)
    (hl1 : ∀ w ∈ l1, isStrEq (pyDictGet w "displayName") workspace_name = false)
    (hws : isStrEq (pyDictGet ws "displayName") workspace_name = true) :
    get_or_create_workspace workspace_name token capacity_id listResp createResp =
      (.ok (pyDictGet ws "id"),
       [⟨"GET", FABRIC_API_BASE ++ "/" ++ lstripSlashes "workspaces",
         [("Authorization", "Bearer " ++ token)], none⟩]) := by
  simp [get_or_create_workspace, fabric_request_get_ok hok, respJson, hbody,
    hsplit, findWorkspace_append workspace_name l1 l2 ws hl1 hws]

/-- C4 witness: a workspace listing containing `DevWorkspace` resolves to its
id `w1` with only the single GET issued. -/
theorem get_or_create_workspace_existing_witness :
    get_or_create_workspace "DevWorkspace" "TOK" none
        ⟨200, "", some (.obj [("value", .arr
          [.obj [("id", .str "w1"), ("displayName", .str "DevWorkspace")]])])⟩
        ⟨200, "", none⟩ =
      (.ok (.str "w1"),
       [⟨"GET", FABRIC_API_BASE ++ "/" ++ lstripSlashes "workspaces",
         [("Authorization", "Bearer " ++ "TOK")], none⟩]) :=
  get_or_create_workspace_existing "DevWorkspace" "TOK" none
    ⟨200, "", some (.obj [("value", .arr
      [.obj [("id", .str "w1"), ("displayName", .str "DevWorkspace")]])])⟩
    ⟨200, "", none⟩
    (.obj [("value", .arr
      [.obj [("id", .str "w1"), ("displayName", .str "DevWorkspace")]])])
    [] []
    (.obj [("id", .str "w1"), ("displayName", .str "DevWorkspace")])
    (by decide) rfl rfl (by simp) rfl

/-- C5: when the wanted display name is absent from the listed collection,
`get_or_create_workspace` issues exactly one create POST carrying the display
name (and the capacity identifier exactly when one was supplied and
non-empty) and returns the `id` of the create response body; the whole trace
is the listing GET followed by that single POST. -/
theorem get_or_create_workspace_absent (workspace_name token : String)
    (capacity_id : Option String) (listResp createResp : HttpResponse)
    (data wsBody wsId : JsonVal)
    (hok : listResp.status < 400) (hbody : listResp.jsonBody = some data)
    (hnone : ∀ w ∈ asList (collectionGet data "workspaces"),
      isStrEq (pyDictGet w "displayName") workspace_name = false)
    (hcok : createResp.status < 400) (hcbody : createResp.jsonBody = some wsBody)
    (hid : pySubscript wsBody "id" = .ok wsId) :
    get_or_create_workspace workspace_name token capacity_id listResp createResp =
      (.ok wsId,
       [⟨"GET", FABRIC_API_BASE ++ "/" ++ lstripSlashes "workspaces",
         [("Authorization", "Bearer " ++ token)], none⟩,
        ⟨"POST", FABRIC_API_BASE ++ "/" ++ lstripSlashes "workspaces",
         [("Authorization", "Bearer " ++ token),
          ("Content-Type", "application/json")],
         some (.obj ([("displayName", .str workspace_name)] ++
           (match capacity_id with
            | some c => if c = "" then [] else [("capacityId", .str c)]
            | none => [])))⟩]) := by
  simp [get_or_create_workspace, fabric_request_get_ok hok,
    fabric_request_post_json_ok hcok, respJson, hbody, hcbody,
    findWorkspace_none workspace_name _ hnone, hid]

/-- C5 witness: an empty listing followed by a create response with id `w9`
returns `w9`, with the one POST carrying the display name and the supplied
capacity id. -/
theorem get_or_create_workspace_absent_witness :
    get_or_create_workspace "NewWS" "TOK" (some "cap1")
        ⟨200, "", some (.obj [("value", .arr [])])⟩
        ⟨201, "", some (.obj [("id", .str "w9")])⟩ =
      (.ok (.str "w9"),
       [⟨"GET", FABRIC_API_BASE ++ "/" ++ lstripSlashes "workspaces",
         [("Authorization", "Bearer " ++ "TOK")], none⟩,
        ⟨"POST", FABRIC_API_BASE ++ "/" ++ lstripSlashes "workspaces",
         [("Authorization", "Bearer " ++ "TOK"),
          ("Content-Type", "application/json")],
         some (.obj [("displayName", .str "NewWS"),
                     ("capacityId", .str "cap1")])⟩]) :=
  get_or_create_workspace_absent "NewWS" "TOK" (some "cap1")
    ⟨200, "", some (.obj [("value", .arr [])])⟩
    ⟨201, "", some (.obj [("id", .str "w9")])⟩
    (.obj [("value", .arr [])]) (.obj [("id", .str "w9")]) (.str "w9")
    (by decide) rfl (by decide) (by decide) rfl rfl

/-- C10: a listing body without the `value` key falls back to the
`workspaces` key in the workspace resolver and to the `items` key in the item
lister, defaulting to the empty collection; such a body raises no error — the
item lister returns the empty list, and the workspace resolver proceeds to
the create POST (its trace is the GET followed by the POST). -/
theorem listing_fallback_keys (data : JsonVal)
    (hval : lookupKey data "value" = none) :
    collectionGet data "workspaces" = (lookupKey data "workspaces").getD (.arr []) ∧
    collectionGet data "items" = (lookupKey data "items").getD (.arr []) ∧
    (∀ (workspace_id item_type token : String) (listResp : HttpResponse),
      listResp.status < 400 → listResp.jsonBody = some data →
      lookupKey data "items" = none →
      list_items_by_type workspace_id item_type token listResp =
        (.ok (.arr []),
         [⟨"GET", FABRIC_API_BASE ++ "/" ++ lstripSlashes
            ("workspaces/" ++ workspace_id ++ "/items?type=" ++ item_type),
           [("Authorization", "Bearer " ++ token)], none⟩])) ∧
    (∀ (workspace_name token : String) (capacity_id : Option String)
       (listResp createResp : HttpResponse),
      listResp.status < 400 → listResp.jsonBody = some data →
      lookupKey data "workspaces" = none →
      ((get_or_create_workspace workspace_name token capacity_id listResp
          createResp).2).map (fun r => r.method) = ["GET", "POST"]) := by
  refine ⟨by simp [collectionGet, hval], by simp [collectionGet, hval],
    fun workspace_id item_type token listResp hok hbody hitems => ?_,
    fun workspace_name token capacity_id listResp createResp hok hbody hws => ?_⟩
  · simp [list_items_by_type, fabric_request_get_ok hok, respJson, hbody,
      collectionGet, hval, hitems]
  · have hempty : asList (collectionGet data "workspaces") = [] := by
      simp [collectionGet, hval, hws, asList]
    simp only [get_or_create_workspace, fabric_request_get_ok hok]
    simp only [respJson, hbody, hempty, findWorkspace]
    (repeat' split) <;> simp [fabric_request_method]

/-- C10 witness: a body `{"foo": "x"}` with none of the expected keys — the
fallbacks yield the empty defaults, the item lister returns the empty list
without error, and the workspace resolver issues its create POST. -/
theorem listing_fallback_keys_witness :
    collectionGet (.obj [("foo", .str "x")]) "workspaces" =
      (lookupKey (.obj [("foo", .str "x")]) "workspaces").getD (.arr []) ∧
    list_items_by_type "w7" "Report" "TOK" ⟨200, "{}", some (.obj [("foo", .str "x")])⟩ =
      (.ok (.arr []),
       [⟨"GET", FABRIC_API_BASE ++ "/" ++ lstripSlashes
          ("workspaces/" ++ "w7" ++ "/items?type=" ++ "Report"),
         [("Authorization", "Bearer " ++ "TOK")], none⟩]) ∧
    ((get_or_create_workspace "WS" "TOK" none
        ⟨200, "{}", some (.obj [("foo", .str "x")])⟩
        ⟨202, "", none⟩).2).map (fun r => r.method) = ["GET", "POST"] :=
  ⟨(listing_fallback_keys (.obj [("foo", .str "x")]) rfl).1,
   (listing_fallback_keys (.obj [("foo", .str "x")]) rfl).2.2.1
     "w7" "Report" "TOK" ⟨200, "{}", some (.obj [("foo", .str "x")])⟩
     (by decide) rfl rfl,
   (listing_fallback_keys (.obj [("foo", .str "x")]) rfl).2.2.2
     "WS" "TOK" none ⟨200, "{}", some (.obj [("foo", .str "x")])⟩
     ⟨202, "", none⟩ (by decide) rfl rfl⟩

theorem findMatchItemId_nomatch (name : String) (l : List JsonVal)
    (h : ∀ it ∈ l, isStrEq (pyDictGet it "displayName") name = false) :
    findMatchItemId name l = .null := by
  induction l with
  | nil => rfl
  | cons it l ih =>
      simp only [findMatchItemId, h it (List.mem_cons_self it l),
        Bool.false_eq_true, if_false]
      exact ih fun x hx => h x (List.mem_cons_of_mem it hx)

theorem findMatchItemId_append (name : String) (l1 l2 : List JsonVal) (it : JsonVal)
    (h1 : ∀ w ∈ l1, isStrEq (pyDictGet w "displayName") name = false)
    (hit : isStrEq (pyDictGet it "displayName") name = true) :
    findMatchItemId name (l1 ++ it :: l2) = pyDictGet it "id" := by
  induction l1 with
  | nil => simp [findMatchItemId, hit]
  | cons w l ih =>
      simp only [List.cons_append, findMatchItemId, h1 w (List.mem_cons_self w l),
        Bool.false_eq_true, if_false]
      exact ih fun x hx => h1 x (List.mem_cons_of_mem w hx)

/-- C1 counterexample: a folder with one file, an item listing with no match,
and a create response of 202 Accepted with no parseable body.  The claim says
publish then enters a polling loop that re-lists items (up to 40 times, 3
time units apart) and either returns the identifier of a later listing or
raises `PublishTimeoutError`.  The code does neither: it raises
`FabricApiError` immediately, and its whole request trace is the single
listing GET followed by the single create POST — no second listing is ever
issued (and no `PublishTimeoutError` exists in the source). -/
theorem create_or_update_202_counterexample :
    (create_or_update_item_from_folder "ws1" "src/CleanModel.SemanticModel"
        (.mk [("definition.pbism", [104, 105])] []) "SemanticModel" "TOK"
        ⟨200, "", some (.obj [("value", .arr [])])⟩ ⟨202, "", none⟩).1 =
      .error (.fabricApiError
        "Fabric failed to create item 'CleanModel' of type 'SemanticModel'.") ∧
    ((create_or_update_item_from_folder "ws1" "src/CleanModel.SemanticModel"
        (.mk [("definition.pbism", [104, 105])] []) "SemanticModel" "TOK"
        ⟨200, "", some (.obj [("value", .arr [])])⟩ ⟨202, "", none⟩).2).map
      (fun r => r.method) = ["GET", "POST"] :=
  ⟨rfl, rfl⟩

/-- C1 amended: for a folder whose computed display name has no existing item
match, when the create request's response is a 202 Accepted with no parseable
body, `create_or_update_item_from_folder` fails immediately with
`FabricApiError` ("Fabric failed to create item ..."): its request trace is
exactly the one listing GET and the one create POST, so no polling loop, no
re-listing and no `PublishTimeoutError` occur. -/
theorem create_or_update_202_fails_immediately (workspace_id folder : String)
    (tree : FsDir) (item_type token : String)
    (listResp createResp : HttpResponse) (data : JsonVal)
    (hne : (walkParts "" tree).isEmpty = false)
    (hlok : listResp.status < 400) (hlbody : listResp.jsonBody = some data)
    (hnomatch : ∀ it ∈ asList (collectionGet data "items"),
      isStrEq (pyDictGet it "displayName") (computeDisplayName folder) = false)
    (hc202 : createResp.status = 202) (hcbody : createResp.jsonBody = none) :
    create_or_update_item_from_folder workspace_id folder tree item_type token
        listResp createResp =
      (.error (.fabricApiError ("Fabric failed to create item '" ++
          computeDisplayName folder ++ "' of type '" ++ item_type ++ "'.")),
       [⟨"GET", FABRIC_API_BASE ++ "/" ++ lstripSlashes
           ("workspaces/" ++ workspace_id ++ "/items?type=" ++ item_type),
         [("Authorization", "Bearer " ++ token)], none⟩,
        ⟨"POST", FABRIC_API_BASE ++ "/" ++ lstripSlashes
           ("workspaces/" ++ workspace_id ++ "/items"),
         [("Authorization", "Bearer " ++ token),
          ("Content-Type", "application/json")],
         some (.obj [("displayName", .str (computeDisplayName folder)),
                     ("type", .str item_type),
                     ("definition", .obj [("parts",
                       .arr ((walkParts "" tree).map partToJson))])])⟩]) := by
  have hcok : createResp.status < 400 := by omega
  simp [create_or_update_item_from_folder, build_definition_parts_from_folder,
    hne, list_items_by_type, fabric_request_get_ok hlok, respJson, hlbody,
    findMatchItemId_nomatch _ _ hnomatch, isNull,
    fabric_request_post_json_ok hcok, hcbody, JsonVal.truthy]

/-- C1 amended witness: at the concrete 202-with-empty-body input, publish
returns the `FabricApiError` and the two-request trace. -/
theorem create_or_update_202_fails_immediately_witness :
    create_or_update_item_from_folder "ws1" "src/CleanReport.Report"
        (.mk [("definition.pbir", [104, 105])] []) "Report" "TOK"
        ⟨200, "", some (.obj [("value", .arr [])])⟩ ⟨202, "", none⟩ =
      (.error (.fabricApiError ("Fabric failed to create item '" ++
          computeDisplayName "src/CleanReport.Report" ++ "' of type '" ++
          "Report" ++ "'.")),
       [⟨"GET", FABRIC_API_BASE ++ "/" ++ lstripSlashes
           ("workspaces/" ++ "ws1" ++ "/items?type=" ++ "Report"),
         [("Authorization", "Bearer " ++ "TOK")], none⟩,
        ⟨"POST", FABRIC_API_BASE ++ "/" ++ lstripSlashes
           ("workspaces/" ++ "ws1" ++ "/items"),
         [("Authorization", "Bearer " ++ "TOK"),
          ("Content-Type", "application/json")],
         some (.obj [("displayName",
                       .str (computeDisplayName "src/CleanReport.Report")),
                     ("type", .str "Report"),
                     ("definition", .obj [("parts",
                       .arr ((walkParts ""
                         (.mk [("definition.pbir", [104, 105])] [])).map
                           partToJson))])])⟩]) :=
  create_or_update_202_fails_immediately "ws1" "src/CleanReport.Report"
    (.mk [("definition.pbir", [104, 105])] []) "Report" "TOK"
    ⟨200, "", some (.obj [("value", .arr [])])⟩ ⟨202, "", none⟩
    (.obj [("value", .arr [])])
    rfl (by decide) rfl (by decide) rfl rfl

/-- C2: what the code actually does on the update path.  When the computed
display name matches an existing item of the type (with a non-None id), the
source's update branch builds `body = {"definition": definition}` and then
evaluates `item = resp.json()` — but `resp` is a local variable that is never
assigned on this path, so Python raises `UnboundLocalError` and the run
aborts.  No update-definition request is ever issued (the trace is the single
listing GET), no create request is issued, and no identifier is returned —
contradicting the claim (and the source's own docstring, which documents a
POST to `.../updateDefinition`). -/
theorem create_or_update_match_unbound_local (workspace_id folder : String)
    (tree : FsDir) (item_type token : String)
    (listResp createResp : HttpResponse) (data : JsonVal)
    (l1 l2 : List JsonVal) (it : JsonVal)
    (hne : (walkParts "" tree).isEmpty = false)
    (hlok : listResp.status < 400) (hlbody : listResp.jsonBody = some data)
    (hsplit : asList (collectionGet data "items") = l1 ++ it :: l2)
    (hl1 : ∀ w ∈ l1,
      isStrEq (pyDictGet w "displayName") (computeDisplayName folder) = false)
    (hit : isStrEq (pyDictGet it "displayName") (computeDisplayName folder) = true)
    (hid : isNull (pyDictGet it "id") = false) :
    create_or_update_item_from_folder workspace_id folder tree item_type token
        listResp createResp =
      (.error (.unboundLocalError "resp"),
       [⟨"GET", FABRIC_API_BASE ++ "/" ++ lstripSlashes
           ("workspaces/" ++ workspace_id ++ "/items?type=" ++ item_type),
         [("Authorization", "Bearer " ++ token)], none⟩]) := by
  simp [create_or_update_item_from_folder, build_definition_parts_from_folder,
    hne, list_items_by_type, fabric_request_get_ok hlok, respJson, hlbody,
    hsplit, findMatchItemId_append _ l1 l2 it hl1 hit, hid]

/-- C2 witness: a listing whose one entry matches the display name — the run
aborts with `UnboundLocalError` after the single listing GET. -/
theorem create_or_update_match_unbound_local_witness :
    create_or_update_item_from_folder "ws1" "src/CleanReport.Report"
        (.mk [("definition.pbir", [104, 105])] []) "Report" "TOK"
        ⟨200, "", some (.obj [("value", .arr
          [.obj [("id", .str "i1"), ("displayName", .str "CleanReport")]])])⟩
        ⟨202, "", none⟩ =
      (.error (.unboundLocalError "resp"),
       [⟨"GET", FABRIC_API_BASE ++ "/" ++ lstripSlashes
           ("workspaces/" ++ "ws1" ++ "/items?type=" ++ "Report"),
         [("Authorization", "Bearer " ++ "TOK")], none⟩]) :=
  create_or_update_match_unbound_local "ws1" "src/CleanReport.Report"
    (.mk [("definition.pbir", [104, 105])] []) "Report" "TOK"
    ⟨200, "", some (.obj [("value", .arr
      [.obj [("id", .str "i1"), ("displayName", .str "CleanReport")]])])⟩
    ⟨202, "", none⟩
    (.obj [("value", .arr
      [.obj [("id", .str "i1"), ("displayName", .str "CleanReport")]])])
    [] [] (.obj [("id", .str "i1"), ("displayName", .str "CleanReport")])
    rfl (by decide) rfl rfl (by simp) rfl rfl

mutual
/-- Every part emitted while walking a directory at relative prefix `pre`
comes from a file of that directory tree: its path is the joined relative
path with backslashes replaced, its payload the base64 of the file's bytes,
its payloadType the literal `InlineBase64`. -/
theorem walkParts_mem : ∀ (pre : String) (d : FsDir) (part : DefinitionPart),
    part ∈ walkParts pre d →
    ∃ comps content, FileAt d comps content ∧
      part.path = replaceBackslashes (comps.foldl joinRel pre) ∧
      part.payloadType = "InlineBase64" ∧
      part.payload = base64Encode content
  | pre, .mk files subdirs, part, h => by
      rw [walkParts] at h
      rcases List.mem_append.1 h with hf | hs
      · obtain ⟨⟨fn, content⟩, hfmem, hpart⟩ := List.mem_map.1 hf
        subst hpart
        exact ⟨[fn], content, FileAt.here hfmem, rfl, rfl, rfl⟩
      · obtain ⟨dn, sub, comps, content, hmem, hat, hpath, hty, hpay⟩ :=
          walkSubdirs_mem pre subdirs part hs
        exact ⟨dn :: comps, content, FileAt.there hmem hat,
          by simpa [List.foldl_cons] using hpath, hty, hpay⟩

/-- The companion statement for the subdirectory sweep. -/
theorem walkSubdirs_mem : ∀ (pre : String) (subs : List (String × FsDir))
    (part : DefinitionPart), part ∈ walkSubdirs pre subs →
    ∃ dn sub comps content, (dn, sub) ∈ subs ∧ FileAt sub comps content ∧
      part.path = replaceBackslashes (comps.foldl joinRel (joinRel pre dn)) ∧
      part.payloadType = "InlineBase64" ∧
      part.payload = base64Encode content
  | _, [], part, h => by rw [walkSubdirs] at h; cases h
  | pre, (dn, sub) :: rest, part, h => by
      rw [walkSubdirs] at h
      rcases List.mem_append.1 h with h1 | h2
      · obtain ⟨comps, content, hat, hpath, hty, hpay⟩ :=
          walkParts_mem (joinRel pre dn) sub part h1
        exact ⟨dn, sub, comps, content, List.mem_cons_self _ _, hat,
          hpath, hty, hpay⟩
      · obtain ⟨dn2, sub2, comps, content, hmem, hat, hpath, hty, hpay⟩ :=
          walkSubdirs_mem pre rest part h2
        exact ⟨dn2, sub2, comps, content, List.mem_cons_of_mem _ hmem, hat,
          hpath, hty, hpay⟩
end

/-- C9: every definition part produced by a successful
`build_definition_parts_from_folder` corresponds to a file of the folder
tree: its `path` is the file's relative path (components joined from the walk
root) with every backslash replaced by "/", its `payloadType` the literal
string `InlineBase64`, and its `payload` the base64 encoding of the file's
exact bytes. -/
theorem build_definition_parts_invariant (folder : String) (tree : FsDir)
    (parts : List DefinitionPart)
    (h : build_definition_parts_from_folder folder tree = .ok parts) :
    ∀ part ∈ parts, ∃ comps content, FileAt tree comps content ∧
      part.path = replaceBackslashes (comps.foldl joinRel "") ∧
      part.payloadType = "InlineBase64" ∧
      part.payload = base64Encode content := by
  intro part hp
  have hps : parts = walkParts "" tree := by
    unfold build_definition_parts_from_folder at h
    by_cases he : (walkParts "" tree).isEmpty
    · rw [if_pos he] at h
      cases h
    · rw [if_neg he] at h
      exact (Except.ok.inj h).symm
  exact walkParts_mem "" tree part (hps ▸ hp)

/-- C9 witness: in a tree with a nested `definition` directory, the part
emitted for the nested file satisfies the invariant (path
`definition/report.json`, payload the base64 `/w==` of byte 255, payloadType
`InlineBase64`). -/
theorem build_definition_parts_invariant_witness :
    ∃ comps content,
      FileAt (.mk [(".platform", [1, 2, 3])]
          [("definition", .mk [("report.json", [255])] [])]) comps content ∧
      (⟨"definition/report.json", "/w==", "InlineBase64"⟩ : DefinitionPart).path =
        replaceBackslashes (comps.foldl joinRel "") ∧
      (⟨"definition/report.json", "/w==", "InlineBase64"⟩ : DefinitionPart).payloadType =
        "InlineBase64" ∧
      (⟨"definition/report.json", "/w==", "InlineBase64"⟩ : DefinitionPart).payload =
        base64Encode content :=
  build_definition_parts_invariant "src/CleanReport.Report"
    (.mk [(".platform", [1, 2, 3])] [("definition", .mk [("report.json", [255])] [])])
    [⟨".platform", "AQID", "InlineBase64"⟩,
     ⟨"definition/report.json", "/w==", "InlineBase64"⟩]
    rfl
    ⟨"definition/report.json", "/w==", "InlineBase64"⟩
    (by decide)
